import Mathlib

set_option maxRecDepth 8000

/-
Verification of the ANLffr example driver `examples/moddepth_analysis.py`.

The script is pure orchestration: a collision-avoiding output-filename
resolver (`_check_filename`), and a per-subject / per-condition loop that
loads two polarity `.mat` files, checks trial counts and sample rates,
subsamples trials, calls an external bootstrap estimator, and writes a CSV.

Python strings are modelled as `List Char`.  The filesystem, the `.mat`
loader, numpy's random permutation, and the external estimator
(`bootstrap.bootfunc`) are oracles supplied through an environment record;
everything the script itself computes is translated directly from the
source.  The `while` loop of `_check_filename` is modelled with explicit
fuel (returning `none` when the fuel runs out), which is the standard
shallow embedding of an unbounded loop.
-/

abbrev Str := List Char

/-- Python `str(n)` for a natural number. -/
def natStr (n : Nat) : Str := Nat.toDigits 10 n

/-- Python `str(i)` for an integer. -/
def intStr (i : Int) : Str := if i < 0 then '-' :: natStr i.natAbs else natStr i.natAbs

/-- The `.csv` extension appended by `_check_filename`. -/
def csvExtStr : Str := ".csv".data

/-- Last index of `ch` in `p`, or `-1` when absent (Python `str.rfind`). -/
def strRfind (ch : Char) (p : Str) : Int :=
  match ((List.range p.length).filter (fun i => decide (p.getD i 'a' = ch))).getLast? with
  | some i => Int.ofNat i
  | none => -1

/-- Model of `os.path.splitext` (posixpath): split at the last dot of the basename,
provided some non-dot character of the basename precedes it. -/
def splitext (p : Str) : Str × Str :=
  let sepIndex := strRfind '/' p
  let dotIndex := strRfind '.' p
  if sepIndex < dotIndex then
    if (List.range p.length).any
        (fun j => decide (sepIndex < Int.ofNat j) && decide (Int.ofNat j < dotIndex)
          && decide (p.getD j 'a' ≠ '.')) then
      (p.take dotIndex.toNat, p.drop dotIndex.toNat)
    else (p, [])
  else (p, [])

/-- Model of `os.path.join` (posixpath) for two components. -/
def joinPath (dir name : Str) : Str :=
  if name.head? = some '/' then name
  else if dir = [] ∨ dir.getLast? = some '/' then dir ++ name
  else dir ++ ('/' :: name)

/-- One rewriting step of the `while` loop in `_check_filename`:
`os.path.splitext(fullFilename)[0] + '_' + str(counter) + '.csv'`. -/
def nextCandidate (counter : Nat) (fullFilename : Str) : Str :=
  (splitext fullFilename).1 ++ ('_' :: (natStr counter ++ csvExtStr))

/-- The `while os.path.exists(fullFilename)` loop of `_check_filename`,
with fuel; `counter` is the Python `counter` variable. -/
def checkLoop (fsEx : Str → Bool) : Nat → Nat → Str → Option Str
  | 0, _, _ => none
  | fuel + 1, counter, fullFilename =>
    if fsEx fullFilename then
      checkLoop fsEx fuel (counter + 1) (nextCandidate (counter + 1) fullFilename)
    else some fullFilename

/-- Translation of `_check_filename(inSaveName, inSaveDir)`, over a
filesystem-existence oracle `fsEx` and explicit loop fuel. -/
def check_filename (fsEx : Str → Bool) (fuel : Nat) (inSaveName inSaveDir : Str) :
    Option Str :=
  checkLoop fsEx fuel 0 (joinPath inSaveDir inSaveName)

/-- The sequence of names the resolver tries: candidate 0 is the joined
name, and candidate `k+1` rewrites candidate `k` with counter `k+1`. -/
def candidate (joined : Str) : Nat → Str
  | 0 => joined
  | k + 1 => nextCandidate (k + 1) (candidate joined k)

/-- The two polarities; the dict `loadName` holds the key `'positive'`
first and `'negative'` second, which is also its iteration order. -/
inductive Polarity
  | positive
  | negative
deriving DecidableEq

/-- Exceptions relevant to the script: the two caught classes and a
catch-all for every other Python exception. -/
inductive PyExc
  | ioError
  | assertionError
  | other (name : Str)
deriving DecidableEq

/-- A trial matrix (`wholeMat['data']`): 3-dimensional, trials along the
second axis. -/
structure Mat where
  shape0 : Nat
  shape1 : Nat
  shape2 : Nat
  entry : Nat → Nat → Nat → Int

/-- A loaded `.mat` file, with its `data` and `sampleRate` keys. -/
structure MatFile where
  data : Mat
  sampleRate : Int

/-- The fields of the parameter record returned by
`spectral.generate_parameters` that the script reads.  Frequency values
and statistics are abstracted to integers; only their rendered text
reaches the CSV. -/
structure Params where
  Fs : Int
  nDraws : Nat
  nPerDraw : Nat
  f : List Int

/-- One `bootMean` / `bootVariance` pair of the estimator result,
indexed by frequency bin. -/
structure BootStat where
  bootMean : Nat → Int
  bootVariance : Nat → Int

/-- The nested result mapping returned by `bootstrap.bootfunc` at the
keys the script reads. -/
structure BootResult where
  mtcpcaPLV_normalPhase : BootStat
  mtcpcaSpectrum_normalPhase : BootStat
  mtcpcaPLV_phaseFlipHalfTrials : BootStat
  mtcpcaSpectrum_phaseFlipHalfTrials : BootStat

/-- Oracles for one condition iteration: the `.mat` loader, numpy's
`random.permutation` (one draw per polarity), the external estimator, and
a possible write failure (`some k` means the `k`-th `outputFile.write`
call raises `IOError`). -/
structure CondEnv where
  loadmat : Str → Except PyExc MatFile
  perm : Polarity → List Nat
  bootfunc : List Mat → Params → Except PyExc BootResult
  writeFail : Option Nat

/-- Observable effects of one condition iteration: `print` calls, load
requests, lines written to the output file, estimator invocations, the
subsampled trial indices, and whether the file was closed. -/
structure Effects where
  stdout : List Str := []
  reads : List Str := []
  lines : List Str := []
  bootCalls : List (List Mat × Params) := []
  usedTrials : List (Polarity × List Nat) := []
  closed : Bool := false

/-- How one condition iteration ended. -/
inductive Outcome
  | completed
  | skippedIO (msg : Str)
  | skippedTrials (msg : Str)
deriving DecidableEq

/-- Report of one condition iteration: the loop's condition index, the
resolved output filename (the file is created on `open`), the effects,
and the outcome. -/
structure CondReport where
  condition : Nat
  outFilename : Str
  effects : Effects
  outcome : Outcome

/-- Input filenames: `s + '_S_' + str(c) + '.mat'` for the positive
polarity and `s + '_S_' + str(c+6) + '.mat'` for the negative one. -/
def loadNameOf (s : Str) (c : Nat) : Polarity → Str
  | Polarity.positive => s ++ ("_S_".data) ++ natStr c ++ (".mat".data)
  | Polarity.negative => s ++ ("_S_".data) ++ natStr (c + 6) ++ (".mat".data)

/-- Output base name: `s + '_condition_' + str(c) + '.csv'`. -/
def saveNameOf (s : Str) (c : Nat) : Str :=
  s ++ ("_condition_".data) ++ natStr c ++ csvExtStr

/-- The check `mat.shape[1] > minTrials` of the first assert. -/
def trialsCheck (nTrials minTrials : Nat) : Bool := decide (nTrials > minTrials)

/-- The check `sampleRateFromFile == params['Fs']` of the second assert. -/
def rateCheck (fromFile cfg : Int) : Bool := decide (fromFile = cfg)

/-- Rendering of the printed numpy index array (abstraction of numpy's
array formatting). -/
def arrayStr (l : List Nat) : Str :=
  ("[".data) ++ List.flatten (List.intersperse (" ".data) (l.map natStr)) ++ ("]".data)

/-- The dict key of a polarity, as printed. -/
def polKey : Polarity → Str
  | Polarity.positive => "positive".data
  | Polarity.negative => "negative".data

/-- Argument of `print('condition: {}'.format(c))`. -/
def condMsg (c : Nat) : Str := "condition: ".data ++ natStr c

/-- Argument of the `print` in the `except IOError` handler. -/
def ioMsg (fname : Str) (c : Nat) : Str :=
  "\nCannot find file: ".data ++ fname ++ (", skipping,condition ".data)
    ++ natStr c ++ (" \n".data)

/-- Argument of the `print` in the `except AssertionError` handler. -/
def trialsMsg (n : Nat) (fname : Str) (c : Nat) : Str :=
  "\nOnly ".data ++ natStr n ++ (" trials detected in ".data) ++ fname
    ++ (", skipping condition ".data) ++ natStr c ++ ("...\n".data)

/-- Argument of `print('using {} polarity trials:\n {}'.format(l, useTrials))`. -/
def usingMsg (pol : Polarity) (use : List Nat) : Str :=
  "using ".data ++ polKey pol ++ (" polarity trials:\n ".data) ++ arrayStr use

/-- Selection `mat[:, useTrials, :]` of the given trial indices. -/
def selectTrials (m : Mat) (idxs : List Nat) : Mat :=
  { shape0 := m.shape0, shape1 := idxs.length, shape2 := m.shape2,
    entry := fun i j k => m.entry i (idxs.getD j 0) k }

/-- The 13 fixed column headers written first. -/
def headerCells : List Str :=
  [("Subject Name".data), ("Condition".data), ("Number of Draws".data),
   ("Trials per Draw".data), ("Frequency".data),
   ("PLV**2: bootstrapped mean".data), ("PLV**2: bootstrapped variance".data),
   ("Spectrum: bootstrapped mean".data), ("Spectrum: bootstrapped variance".data),
   ("Noise floor PLV**2: bootstrapped mean".data),
   ("Noise floor PLV**2: bootstrapped variance".data),
   ("Noise floor Spectrum: bootstrapped mean".data),
   ("Noise floor Spectrum: bootstrapped variance".data)]

/-- Formatting `printStr.format(...)`: 13 cells joined by commas, ending in a
newline. -/
def formatRow (cells : List Str) : Str :=
  List.flatten (List.intersperse (",".data) cells) ++ ("\n".data)

/-- The 13 cells of the data row for frequency bin `i`. -/
def dataRow (s : Str) (c : Nat) (params : Params) (result : BootResult) (i : Nat) :
    List Str :=
  [s, natStr c, natStr params.nDraws, natStr params.nPerDraw,
   intStr (params.f.getD i 0),
   intStr (result.mtcpcaPLV_normalPhase.bootMean i),
   intStr (result.mtcpcaPLV_normalPhase.bootVariance i),
   intStr (result.mtcpcaSpectrum_normalPhase.bootMean i),
   intStr (result.mtcpcaSpectrum_normalPhase.bootVariance i),
   intStr (result.mtcpcaPLV_phaseFlipHalfTrials.bootMean i),
   intStr (result.mtcpcaPLV_phaseFlipHalfTrials.bootVariance i),
   intStr (result.mtcpcaSpectrum_phaseFlipHalfTrials.bootMean i),
   intStr (result.mtcpcaSpectrum_phaseFlipHalfTrials.bootVariance i)]

/-- One iteration of `for l in loadName`: `io.loadmat`, the two asserts
(trial count first, then sample rate), and the subsample draw.  On
failure it reports the exception together with the value the variable
`mat` holds at that point (`none` when `loadmat` itself raised before
assigning `mat`). -/
def loadAndCheck (env : CondEnv) (path : Str) (pol : Polarity) (minTrials : Nat)
    (params : Params) : Except (PyExc × Option Mat) (Mat × List Nat) :=
  match env.loadmat path with
  | Except.error e => Except.error (e, none)
  | Except.ok whole =>
    if trialsCheck whole.data.shape1 minTrials then
      if rateCheck whole.sampleRate params.Fs then
        Except.ok (whole.data, (env.perm pol).take minTrials)
      else Except.error (PyExc.assertionError, some whole.data)
    else Except.error (PyExc.assertionError, some whole.data)

/-- The write phase of the `try` block: the header and data-row
`outputFile.write` calls followed by `outputFile.close()`.  When the
`k`-th write call raises `IOError`, the earlier lines were written, the
file is not closed, and the exception propagates with `l = 'negative'`
and `mat` holding the negative matrix. -/
def writePhase (writeFail : Option Nat) (allLines : List Str) (mat2 : Mat)
    (effBase : Effects) : Effects × Option (PyExc × Polarity × Option Mat) :=
  match writeFail with
  | some k =>
    if k < allLines.length then
      ({ effBase with lines := allLines.take k },
       some (PyExc.ioError, Polarity.negative, some mat2))
    else ({ effBase with lines := allLines, closed := true }, none)
  | none => ({ effBase with lines := allLines, closed := true }, none)

/-- The `try` block of one condition iteration.  Returns the effects
accumulated so far together with `none` on success, or the raised
exception, the current value of the loop variable `l`, and the current
value of `mat` (needed by the `except AssertionError` handler). -/
def runBody (env : CondEnv) (dataDir s : Str) (c minTrials : Nat) (params : Params) :
    Effects × Option (PyExc × Polarity × Option Mat) :=
  let posPath := joinPath dataDir (loadNameOf s c Polarity.positive)
  let negPath := joinPath dataDir (loadNameOf s c Polarity.negative)
  match loadAndCheck env posPath Polarity.positive minTrials params with
  | Except.error (e, m) => ({ reads := [posPath] }, some (e, Polarity.positive, m))
  | Except.ok (mat1, use1) =>
    match loadAndCheck env negPath Polarity.negative minTrials params with
    | Except.error (e, m) =>
      ({ reads := [posPath, negPath],
         stdout := [usingMsg Polarity.positive use1],
         usedTrials := [(Polarity.positive, use1)] },
       some (e, Polarity.negative, some (m.getD mat1)))
    | Except.ok (mat2, use2) =>
      let sub1 := selectTrials mat1 use1
      let sub2 := selectTrials mat2 use2
      let effBase : Effects :=
        { reads := [posPath, negPath],
          stdout := [usingMsg Polarity.positive use1, usingMsg Polarity.negative use2],
          usedTrials := [(Polarity.positive, use1), (Polarity.negative, use2)],
          bootCalls := [([sub1, sub2], params)] }
      match env.bootfunc [sub1, sub2] params with
      | Except.error e => (effBase, some (e, Polarity.negative, some mat2))
      | Except.ok result =>
        writePhase env.writeFail
          (formatRow headerCells ::
            (List.range params.f.length).map (fun i => formatRow (dataRow s c params result i)))
          mat2 effBase

/-- One condition iteration given the already-resolved output filename:
the initial `print`, the `try` block, and the two `except` handlers.
`IOError` and `AssertionError` are converted to skip outcomes; every
other exception propagates. -/
def stepWith (outName : Str) (env : CondEnv) (dataDir s : Str) (c minTrials : Nat)
    (params : Params) : Except PyExc CondReport :=
  let pre : List Str := [condMsg c]
  match runBody env dataDir s c minTrials params with
  | (eff, none) =>
    Except.ok { condition := c, outFilename := outName,
                effects := { eff with stdout := pre ++ eff.stdout },
                outcome := Outcome.completed }
  | (eff, some (PyExc.ioError, l, _)) =>
    Except.ok { condition := c, outFilename := outName,
                effects := { eff with stdout := pre ++ eff.stdout ++ [ioMsg (loadNameOf s c l) c] },
                outcome := Outcome.skippedIO (ioMsg (loadNameOf s c l) c) }
  | (eff, some (PyExc.assertionError, l, some m)) =>
    Except.ok { condition := c, outFilename := outName,
                effects := { eff with
                  stdout := pre ++ eff.stdout ++ [trialsMsg m.shape1 (loadNameOf s c l) c] },
                outcome := Outcome.skippedTrials (trialsMsg m.shape1 (loadNameOf s c l) c) }
  | (_, some (PyExc.assertionError, _, none)) =>
    Except.error (PyExc.other ("NameError".data))
  | (_, some (PyExc.other n, _, _)) => Except.error (PyExc.other n)

/-- One full condition iteration: resolve the output filename (creating
the file on `open`) and run the body with the handlers. -/
def runCond (env : CondEnv) (fs : Str → Bool) (fuel : Nat) (dataDir saveDir s : Str)
    (c minTrials : Nat) (params : Params) : Except PyExc CondReport :=
  match check_filename fs fuel (saveNameOf s c) saveDir with
  | none => Except.error (PyExc.other ("resolver fuel exhausted".data))
  | some outName => stepWith outName env dataDir s c minTrials params

/-- The `for c in range(1, 4)` loop over an explicit condition list.
`envOf c` and `fsOf c` are the oracles as the iteration for `c` sees
them.  A skip (`continue`) moves on to the next condition; an uncaught
exception aborts the whole run. -/
def runConds (envOf : Nat → CondEnv) (fsOf : Nat → Str → Bool) (fuel : Nat)
    (dataDir saveDir s : Str) (minTrials : Nat) (params : Params) :
    List Nat → Except PyExc (List CondReport)
  | [] => Except.ok []
  | c :: rest =>
    match runCond (envOf c) (fsOf c) fuel dataDir saveDir s c minTrials params with
    | Except.error e => Except.error e
    | Except.ok r =>
      Except.map (fun rs => r :: rs)
        (runConds envOf fsOf fuel dataDir saveDir s minTrials params rest)

/-- The conditions of interest: `range(1, 4)`. -/
def conditions123 : List Nat := [1, 2, 3]

/-- The outer `for s in subjectList` loop. -/
def runAll (envOf : Str → Nat → CondEnv) (fsOf : Str → Nat → Str → Bool) (fuel : Nat)
    (dataDir saveDir : Str) (minTrials : Nat) (params : Params) :
    List Str → Except PyExc (List (List CondReport))
  | [] => Except.ok []
  | s :: rest =>
    match runConds (envOf s) (fsOf s) fuel dataDir saveDir s minTrials params conditions123 with
    | Except.error e => Except.error e
    | Except.ok rs =>
      Except.map (fun xs => rs :: xs)
        (runAll envOf fsOf fuel dataDir saveDir minTrials params rest)

/-- Outcome of a condition iteration, when it did not abort the run. -/
def okOutcome (x : Except PyExc CondReport) : Option Outcome :=
  match x with
  | Except.ok r => some r.outcome
  | Except.error _ => none

/-- Resolved output filename of a condition iteration, when it did not
abort the run. -/
def okOutFilename (x : Except PyExc CondReport) : Option Str :=
  match x with
  | Except.ok r => some r.outFilename
  | Except.error _ => none

/-- Lines written to the output file by a condition iteration, when it
did not abort the run. -/
def okLines (x : Except PyExc CondReport) : Option (List Str) :=
  match x with
  | Except.ok r => some r.effects.lines
  | Except.error _ => none

/-- Stdout trace of a condition iteration, when it did not abort the
run. -/
def okStdout (x : Except PyExc CondReport) : Option (List Str) :=
  match x with
  | Except.ok r => some r.effects.stdout
  | Except.error _ => none

/-
Concrete inputs used by the witness theorems below.
-/

/-- Witness save directory for the resolver. -/
def dirW : Str := "d".data

/-- Witness base name with a `.csv` extension. -/
def nameCsvW : Str := "x.csv".data

/-- Witness base name with a non-`.csv` extension. -/
def nameTxtW : Str := "x.txt".data

/-- Filesystem in which exactly the joined base name exists. -/
def fsOneW : Str → Bool := fun p => decide (p = joinPath dirW nameCsvW)

/-- Filesystem in which `d/x.csv` and `d/x_1.csv` exist. -/
def fsTwoW : Str → Bool := fun p =>
  decide (p = ("d/x.csv".data)) || decide (p = ("d/x_1.csv".data))

/-- Filesystem in which exactly `d/x.txt` exists. -/
def fsTxtW : Str → Bool := fun p => decide (p = joinPath dirW nameTxtW)

/-- Witness subject name. -/
def subjW : Str := "subj".data

/-- Witness data directory. -/
def dataDirW : Str := "data".data

/-- Witness save directory. -/
def saveDirW : Str := "save".data

/-- Resolved output filename for subject `subj`, condition 1, empty
filesystem. -/
def outW : Str := "save/subj_condition_1.csv".data

/-- Empty filesystem. -/
def fsNoneW : Str → Bool := fun _ => false

/-- A 1 x 3 x 2 trial matrix (three trials). -/
def matW : Mat := { shape0 := 1, shape1 := 3, shape2 := 2, entry := fun _ _ _ => 0 }

/-- A 1 x 2 x 2 trial matrix (two trials). -/
def matW2 : Mat := { shape0 := 1, shape1 := 2, shape2 := 2, entry := fun _ _ _ => 0 }

/-- All-zero bootstrap statistic. -/
def zeroStat : BootStat := { bootMean := fun _ => 0, bootVariance := fun _ => 0 }

/-- All-zero estimator result. -/
def resW : BootResult :=
  { mtcpcaPLV_normalPhase := zeroStat, mtcpcaSpectrum_normalPhase := zeroStat,
    mtcpcaPLV_phaseFlipHalfTrials := zeroStat,
    mtcpcaSpectrum_phaseFlipHalfTrials := zeroStat }

/-- Witness parameter record: 5000 Hz, 100 draws, 2 per draw, two
frequency bins. -/
def paramsW : Params := { Fs := 5000, nDraws := 100, nPerDraw := 2, f := [70, 71] }

/-- A well-formed `.mat` file with three trials at the configured rate. -/
def fileOKW : MatFile := { data := matW, sampleRate := 5000 }

/-- A `.mat` file with exactly two trials. -/
def fileTrialsW : MatFile := { data := matW2, sampleRate := 5000 }

/-- A `.mat` file whose recorded rate disagrees with the configured one. -/
def fileRateW : MatFile := { data := matW, sampleRate := 4999 }

/-- Environment in which every load and the estimator succeed. -/
def envOKW : CondEnv :=
  { loadmat := fun _ => Except.ok fileOKW, perm := fun _ => [2, 0, 1],
    bootfunc := fun _ _ => Except.ok resW, writeFail := none }

/-- Environment whose files hold exactly `minTrials = 2` trials. -/
def envTrialsW : CondEnv :=
  { loadmat := fun _ => Except.ok fileTrialsW, perm := fun _ => [1, 0],
    bootfunc := fun _ _ => Except.ok resW, writeFail := none }

/-- Environment whose files record a mismatched sample rate. -/
def envRateW : CondEnv :=
  { loadmat := fun _ => Except.ok fileRateW, perm := fun _ => [2, 0, 1],
    bootfunc := fun _ _ => Except.ok resW, writeFail := none }

/-- Environment in which every input file is missing. -/
def envMissingW : CondEnv :=
  { loadmat := fun _ => Except.error PyExc.ioError, perm := fun _ => [],
    bootfunc := fun _ _ => Except.ok resW, writeFail := none }

/-- Environment in which the estimator raises a `ValueError`. -/
def envBootErrW : CondEnv :=
  { loadmat := fun _ => Except.ok fileOKW, perm := fun _ => [2, 0, 1],
    bootfunc := fun _ _ => Except.error (PyExc.other ("ValueError".data)),
    writeFail := none }

/-- Environment in which the very first `outputFile.write` raises
`IOError`. -/
def envWriteFailW : CondEnv :=
  { loadmat := fun _ => Except.ok fileOKW, perm := fun _ => [2, 0, 1],
    bootfunc := fun _ _ => Except.ok resW, writeFail := some 0 }

/-- The report produced for a condition whose positive input file is
missing. -/
def reportMissingW : CondReport :=
  { condition := 1, outFilename := outW,
    effects := { reads := [joinPath dataDirW (loadNameOf subjW 1 Polarity.positive)],
                 stdout := [condMsg 1, ioMsg (loadNameOf subjW 1 Polarity.positive) 1] },
    outcome := Outcome.skippedIO (ioMsg (loadNameOf subjW 1 Polarity.positive) 1) }

/-
Theorems.
-/

/-- The resolver loop returns the first free name of the candidate
sequence: if candidates `j, ..., j+k-1` exist and candidate `j+k` is
free, the loop started at candidate `j` (with counter `j`) returns
candidate `j+k`, given enough fuel. -/
theorem checkLoop_free (fsEx : Str → Bool) (k : Nat) :
    ∀ (j fuel : Nat) (joined : Str), k < fuel →
      (∀ i, i < k → fsEx (candidate joined (j + i)) = true) →
      fsEx (candidate joined (j + k)) = false →
      checkLoop fsEx fuel j (candidate joined j) = some (candidate joined (j + k)) := by
  induction k with
  | zero =>
    intro j fuel joined hf _ hfree
    cases fuel with
    | zero => exact absurd hf (by omega)
    | succ f =>
      rw [show j + 0 = j from rfl] at hfree
      simp [checkLoop, hfree]
  | succ k ih =>
    intro j fuel joined hf hall hfree
    cases fuel with
    | zero => exact absurd hf (by omega)
    | succ f =>
      have h0 : fsEx (candidate joined j) = true := by
        have := hall 0 (Nat.succ_pos k)
        simpa using this
      simp only [checkLoop, h0, if_true]
      have hnc : nextCandidate (j + 1) (candidate joined j) = candidate joined (j + 1) := rfl
      rw [hnc]
      have hall2 : ∀ i, i < k → fsEx (candidate joined (j + 1 + i)) = true := by
        intro i hik
        have := hall (i + 1) (by omega)
        rwa [show j + (i + 1) = j + 1 + i by omega] at this
      have hfree2 : fsEx (candidate joined (j + 1 + k)) = false := by
        rwa [show j + (k + 1) = j + 1 + k by omega] at hfree
      have h := ih (j + 1) f joined (by omega) hall2 hfree2
      rwa [show j + 1 + k = j + (k + 1) by omega] at h

/-- C1 (amended): `_check_filename` returns the joined name unchanged
when no file of that name exists; when candidates collide it does not
insert `x_2.csv` next, but rewrites the previous candidate: candidate 0
is the joined name and candidate `k+1` is the stem of candidate `k`
followed by `_`, the counter `k+1`, and `.csv`; the resolver returns the
first free candidate. -/
theorem check_filename_first_free (fsEx : Str → Bool) (inSaveName inSaveDir : Str)
    (k fuel : Nat) (hfuel : k < fuel)
    (hexist : ∀ i, i < k → fsEx (candidate (joinPath inSaveDir inSaveName) i) = true)
    (hfree : fsEx (candidate (joinPath inSaveDir inSaveName) k) = false) :
    check_filename fsEx fuel inSaveName inSaveDir =
      some (candidate (joinPath inSaveDir inSaveName) k) := by
  have hall : ∀ i, i < k →
      fsEx (candidate (joinPath inSaveDir inSaveName) (0 + i)) = true := by
    intro i hik
    rw [Nat.zero_add]
    exact hexist i hik
  have hfree0 : fsEx (candidate (joinPath inSaveDir inSaveName) (0 + k)) = false := by
    rw [Nat.zero_add]
    exact hfree
  have h := checkLoop_free fsEx k 0 fuel (joinPath inSaveDir inSaveName) hfuel hall hfree0
  rw [Nat.zero_add] at h
  exact h

/-- C1 witness: with only `d/x.csv` existing, the resolver returns
candidate 1, namely `d/x_1.csv`. -/
theorem check_filename_first_free_witness :
    (1 < 10) ∧
    (∀ i, i < 1 → fsOneW (candidate (joinPath dirW nameCsvW) i) = true) ∧
    fsOneW (candidate (joinPath dirW nameCsvW) 1) = false ∧
    check_filename fsOneW 10 nameCsvW dirW =
      some (candidate (joinPath dirW nameCsvW) 1) ∧
    candidate (joinPath dirW nameCsvW) 1 = ("d/x_1.csv".data) :=
  ⟨by omega,
   fun i hi => by rw [Nat.lt_one_iff.mp hi]; decide,
   by decide,
   check_filename_first_free fsOneW nameCsvW dirW 1 10 (by omega)
     (fun i hi => by rw [Nat.lt_one_iff.mp hi]; decide) (by decide),
   by decide⟩

/-- C1 counterexample: with `d/x.csv` and `d/x_1.csv` existing and
`d/x_2.csv` free, `_check_filename('x.csv', 'd')` returns `d/x_1_2.csv`
and not `d/x_2.csv` as the claim states. -/
theorem check_filename_not_plain_increment :
    check_filename fsTwoW 10 nameCsvW dirW = some ("d/x_1_2.csv".data) ∧
    fsTwoW ("d/x_2.csv".data) = false ∧
    ("d/x_1_2.csv".data : Str) ≠ ("d/x_2.csv".data) := by decide

/-- Any name the resolver loop returns is either the starting name or
ends in `.csv`. -/
theorem checkLoop_changed_csv (fsEx : Str → Bool) :
    ∀ (fuel counter : Nat) (full r : Str),
      checkLoop fsEx fuel counter full = some r →
      r = full ∨ ∃ t, r = t ++ csvExtStr := by
  intro fuel
  induction fuel with
  | zero =>
    intro counter full r h
    simp [checkLoop] at h
  | succ f ih =>
    intro counter full r h
    simp only [checkLoop] at h
    by_cases hex : fsEx full
    · rw [if_pos hex] at h
      rcases ih (counter + 1) (nextCandidate (counter + 1) full) r h with h1 | h2
      · right
        refine ⟨(splitext full).1 ++ ('_' :: natStr (counter + 1)), ?_⟩
        rw [h1]
        simp [nextCandidate, List.append_assoc]
      · right
        exact h2
    · rw [if_neg hex] at h
      exact Or.inl (Option.some.inj h).symm

/-- C10: whenever the resolver changes the requested name, the result
ends in `.csv`, whatever the extension of the requested name was. -/
theorem check_filename_changed_ends_csv (fsEx : Str → Bool) (fuel : Nat)
    (inSaveName inSaveDir r : Str)
    (h : check_filename fsEx fuel inSaveName inSaveDir = some r)
    (hne : r ≠ joinPath inSaveDir inSaveName) :
    ∃ t, r = t ++ csvExtStr := by
  have h0 : checkLoop fsEx fuel 0 (joinPath inSaveDir inSaveName) = some r := h
  rcases checkLoop_changed_csv fsEx fuel 0 (joinPath inSaveDir inSaveName) r h0 with h1 | h2
  · exact absurd h1 hne
  · exact h2

/-- C10 witness: colliding `d/x.txt` resolves to `d/x_1.csv` — the
original `.txt` extension is replaced by `.csv`. -/
theorem check_filename_changed_ends_csv_witness :
    check_filename fsTxtW 5 nameTxtW dirW = some ("d/x_1.csv".data) ∧
    ("d/x_1.csv".data : Str) ≠ joinPath dirW nameTxtW ∧
    ∃ t, ("d/x_1.csv".data : Str) = t ++ csvExtStr :=
  ⟨by decide, by decide,
   check_filename_changed_ends_csv fsTxtW 5 nameTxtW dirW ("d/x_1.csv".data)
     (by decide) (by decide)⟩

/-- A raising `loadmat` leaves `mat` unassigned in this iteration. -/
theorem loadAndCheck_load_err (env : CondEnv) (path : Str) (pol : Polarity)
    (minTrials : Nat) (params : Params) (e : PyExc)
    (h : env.loadmat path = Except.error e) :
    loadAndCheck env path pol minTrials params = Except.error (e, none) := by
  simp only [loadAndCheck, h]

/-- The first assert fires when the matrix has at most `minTrials`
trials. -/
theorem loadAndCheck_trials_err (env : CondEnv) (path : Str) (pol : Polarity)
    (minTrials : Nat) (params : Params) (w : MatFile)
    (h : env.loadmat path = Except.ok w)
    (ht : ¬ minTrials < w.data.shape1) :
    loadAndCheck env path pol minTrials params =
      Except.error (PyExc.assertionError, some w.data) := by
  have htc : trialsCheck w.data.shape1 minTrials = false := by
    simp [trialsCheck]
    omega
  simp only [loadAndCheck, h, htc]
  simp

/-- The second assert fires when the recorded rate differs from the
configured one (and the first assert passed). -/
theorem loadAndCheck_rate_err (env : CondEnv) (path : Str) (pol : Polarity)
    (minTrials : Nat) (params : Params) (w : MatFile)
    (h : env.loadmat path = Except.ok w)
    (ht : minTrials < w.data.shape1)
    (hr : w.sampleRate ≠ params.Fs) :
    loadAndCheck env path pol minTrials params =
      Except.error (PyExc.assertionError, some w.data) := by
  have htc : trialsCheck w.data.shape1 minTrials = true := by
    simp [trialsCheck]
    omega
  have hrc : rateCheck w.sampleRate params.Fs = false := by
    simp [rateCheck, hr]
  simp only [loadAndCheck, h, htc, hrc]
  simp

/-- When both asserts pass, the iteration yields the matrix and the
first `minTrials` entries of the permutation. -/
theorem loadAndCheck_pass (env : CondEnv) (path : Str) (pol : Polarity)
    (minTrials : Nat) (params : Params) (w : MatFile)
    (h : env.loadmat path = Except.ok w)
    (ht : minTrials < w.data.shape1)
    (hr : w.sampleRate = params.Fs) :
    loadAndCheck env path pol minTrials params =
      Except.ok (w.data, (env.perm pol).take minTrials) := by
  have htc : trialsCheck w.data.shape1 minTrials = true := by
    simp [trialsCheck]
    omega
  have hrc : rateCheck w.sampleRate params.Fs = true := by
    simp [rateCheck, hr]
  simp only [loadAndCheck, h, htc, hrc]
  simp

/-- Failure while processing the positive polarity. -/
theorem runBody_pos_err (env : CondEnv) (dataDir s : Str) (c minTrials : Nat)
    (params : Params) (e : PyExc) (m : Option Mat)
    (h : loadAndCheck env (joinPath dataDir (loadNameOf s c Polarity.positive))
          Polarity.positive minTrials params = Except.error (e, m)) :
    runBody env dataDir s c minTrials params =
      ({ reads := [joinPath dataDir (loadNameOf s c Polarity.positive)] },
       some (e, Polarity.positive, m)) := by
  simp only [runBody, h]

/-- Failure while processing the negative polarity. -/
theorem runBody_neg_err (env : CondEnv) (dataDir s : Str) (c minTrials : Nat)
    (params : Params) (e : PyExc) (m : Option Mat) (mat1 : Mat) (use1 : List Nat)
    (h1 : loadAndCheck env (joinPath dataDir (loadNameOf s c Polarity.positive))
          Polarity.positive minTrials params = Except.ok (mat1, use1))
    (h2 : loadAndCheck env (joinPath dataDir (loadNameOf s c Polarity.negative))
          Polarity.negative minTrials params = Except.error (e, m)) :
    runBody env dataDir s c minTrials params =
      ({ reads := [joinPath dataDir (loadNameOf s c Polarity.positive),
                   joinPath dataDir (loadNameOf s c Polarity.negative)],
         stdout := [usingMsg Polarity.positive use1],
         usedTrials := [(Polarity.positive, use1)] },
       some (e, Polarity.negative, some (m.getD mat1))) := by
  simp only [runBody, h1, h2]

/-- Full success: both polarities pass, the estimator succeeds, and no
write fails. -/
theorem runBody_success (env : CondEnv) (dataDir s : Str) (c minTrials : Nat)
    (params : Params) (mat1 mat2 : Mat) (use1 use2 : List Nat) (result : BootResult)
    (h1 : loadAndCheck env (joinPath dataDir (loadNameOf s c Polarity.positive))
          Polarity.positive minTrials params = Except.ok (mat1, use1))
    (h2 : loadAndCheck env (joinPath dataDir (loadNameOf s c Polarity.negative))
          Polarity.negative minTrials params = Except.ok (mat2, use2))
    (hb : env.bootfunc [selectTrials mat1 use1, selectTrials mat2 use2] params =
          Except.ok result)
    (hw : env.writeFail = none) :
    runBody env dataDir s c minTrials params =
      ({ reads := [joinPath dataDir (loadNameOf s c Polarity.positive),
                   joinPath dataDir (loadNameOf s c Polarity.negative)],
         stdout := [usingMsg Polarity.positive use1, usingMsg Polarity.negative use2],
         usedTrials := [(Polarity.positive, use1), (Polarity.negative, use2)],
         bootCalls := [([selectTrials mat1 use1, selectTrials mat2 use2], params)],
         lines := formatRow headerCells ::
           (List.range params.f.length).map (fun i => formatRow (dataRow s c params result i)),
         closed := true },
       none) := by
  simp only [runBody, h1, h2, hb, hw, writePhase]

/-- The write phase touches only the `lines` and `closed` fields of the
effects. -/
theorem writePhase_preserves (wf : Option Nat) (allLines : List Str) (m : Mat)
    (eb : Effects) :
    (writePhase wf allLines m eb).1.reads = eb.reads ∧
    (writePhase wf allLines m eb).1.stdout = eb.stdout ∧
    (writePhase wf allLines m eb).1.usedTrials = eb.usedTrials ∧
    (writePhase wf allLines m eb).1.bootCalls = eb.bootCalls := by
  cases wf with
  | none => exact ⟨rfl, rfl, rfl, rfl⟩
  | some k =>
    by_cases hk : k < allLines.length
    · simp [writePhase, hk]
    · simp [writePhase, hk]

/-- After both polarities pass, the effects record the two load
requests, the two subsample messages, the two index subsamples, and
exactly one estimator call, whatever the estimator and the writes do. -/
theorem runBody_effects_after_ok (env : CondEnv) (dataDir s : Str) (c minTrials : Nat)
    (params : Params) (mat1 mat2 : Mat) (use1 use2 : List Nat)
    (h1 : loadAndCheck env (joinPath dataDir (loadNameOf s c Polarity.positive))
          Polarity.positive minTrials params = Except.ok (mat1, use1))
    (h2 : loadAndCheck env (joinPath dataDir (loadNameOf s c Polarity.negative))
          Polarity.negative minTrials params = Except.ok (mat2, use2)) :
    (runBody env dataDir s c minTrials params).1.reads =
      [joinPath dataDir (loadNameOf s c Polarity.positive),
       joinPath dataDir (loadNameOf s c Polarity.negative)] ∧
    (runBody env dataDir s c minTrials params).1.stdout =
      [usingMsg Polarity.positive use1, usingMsg Polarity.negative use2] ∧
    (runBody env dataDir s c minTrials params).1.usedTrials =
      [(Polarity.positive, use1), (Polarity.negative, use2)] ∧
    (runBody env dataDir s c minTrials params).1.bootCalls =
      [([selectTrials mat1 use1, selectTrials mat2 use2], params)] := by
  simp only [runBody, h1, h2]
  cases hb : env.bootfunc [selectTrials mat1 use1, selectTrials mat2 use2] params with
  | error e => exact ⟨rfl, rfl, rfl, rfl⟩
  | ok result =>
    have h := writePhase_preserves env.writeFail
      (formatRow headerCells ::
        (List.range params.f.length).map (fun i => formatRow (dataRow s c params result i)))
      mat2
      { reads := [joinPath dataDir (loadNameOf s c Polarity.positive),
                  joinPath dataDir (loadNameOf s c Polarity.negative)],
        stdout := [usingMsg Polarity.positive use1, usingMsg Polarity.negative use2],
        usedTrials := [(Polarity.positive, use1), (Polarity.negative, use2)],
        bootCalls := [([selectTrials mat1 use1, selectTrials mat2 use2], params)] }
    exact ⟨h.1.trans rfl, h.2.1.trans rfl, h.2.2.1.trans rfl, h.2.2.2.trans rfl⟩

/-- An `IOError` raised in the `try` block is caught: the handler prints
`Cannot find file` with `loadName[l]` and the loop variable `c`, and the
iteration ends in a skip. -/
theorem stepWith_io (outName : Str) (env : CondEnv) (dataDir s : Str)
    (c minTrials : Nat) (params : Params) (eff : Effects) (l : Polarity)
    (m : Option Mat)
    (hbody : runBody env dataDir s c minTrials params =
      (eff, some (PyExc.ioError, l, m))) :
    stepWith outName env dataDir s c minTrials params =
      Except.ok { condition := c, outFilename := outName,
                  effects := { eff with
                    stdout := condMsg c :: (eff.stdout ++ [ioMsg (loadNameOf s c l) c]) },
                  outcome := Outcome.skippedIO (ioMsg (loadNameOf s c l) c) } := by
  simp only [stepWith, hbody]
  rfl

/-- An `AssertionError` raised in the `try` block is caught: the handler
prints the trial-count message built from the current `mat`, `loadName[l]`
and the loop variable `c`, and the iteration ends in a skip. -/
theorem stepWith_assert (outName : Str) (env : CondEnv) (dataDir s : Str)
    (c minTrials : Nat) (params : Params) (eff : Effects) (l : Polarity) (m : Mat)
    (hbody : runBody env dataDir s c minTrials params =
      (eff, some (PyExc.assertionError, l, some m))) :
    stepWith outName env dataDir s c minTrials params =
      Except.ok { condition := c, outFilename := outName,
                  effects := { eff with
                    stdout :=
                      condMsg c :: (eff.stdout ++ [trialsMsg m.shape1 (loadNameOf s c l) c]) },
                  outcome :=
                    Outcome.skippedTrials (trialsMsg m.shape1 (loadNameOf s c l) c) } := by
  simp only [stepWith, hbody]
  rfl

/-- Any other exception raised in the `try` block propagates unchanged. -/
theorem stepWith_other (outName : Str) (env : CondEnv) (dataDir s : Str)
    (c minTrials : Nat) (params : Params) (eff : Effects) (l : Polarity)
    (m : Option Mat) (n : Str)
    (hbody : runBody env dataDir s c minTrials params =
      (eff, some (PyExc.other n, l, m))) :
    stepWith outName env dataDir s c minTrials params =
      Except.error (PyExc.other n) := by
  simp only [stepWith, hbody]

/-- A `try` block that raises nothing completes the iteration. -/
theorem stepWith_ok (outName : Str) (env : CondEnv) (dataDir s : Str)
    (c minTrials : Nat) (params : Params) (eff : Effects)
    (hbody : runBody env dataDir s c minTrials params = (eff, none)) :
    stepWith outName env dataDir s c minTrials params =
      Except.ok { condition := c, outFilename := outName,
                  effects := { eff with stdout := condMsg c :: eff.stdout },
                  outcome := Outcome.completed } := by
  simp only [stepWith, hbody]
  rfl

/-- When the resolver returns a name, the condition iteration is the
body run with that name. -/
theorem runCond_eq (env : CondEnv) (fs : Str → Bool) (fuel : Nat)
    (dataDir saveDir s : Str) (c minTrials : Nat) (params : Params) (outName : Str)
    (hres : check_filename fs fuel (saveNameOf s c) saveDir = some outName) :
    runCond env fs fuel dataDir saveDir s c minTrials params =
      stepWith outName env dataDir s c minTrials params := by
  simp only [runCond, hres]

/-- A non-aborting condition lets the loop continue with the remaining
conditions. -/
theorem runConds_cons_ok (envOf : Nat → CondEnv) (fsOf : Nat → Str → Bool)
    (fuel : Nat) (dataDir saveDir s : Str) (minTrials : Nat) (params : Params)
    (c : Nat) (rest : List Nat) (r : CondReport)
    (h : runCond (envOf c) (fsOf c) fuel dataDir saveDir s c minTrials params =
      Except.ok r) :
    runConds envOf fsOf fuel dataDir saveDir s minTrials params (c :: rest) =
      Except.map (fun rs => r :: rs)
        (runConds envOf fsOf fuel dataDir saveDir s minTrials params rest) := by
  simp only [runConds, h]

/-- An aborting condition terminates the whole loop. -/
theorem runConds_cons_err (envOf : Nat → CondEnv) (fsOf : Nat → Str → Bool)
    (fuel : Nat) (dataDir saveDir s : Str) (minTrials : Nat) (params : Params)
    (c : Nat) (rest : List Nat) (e : PyExc)
    (h : runCond (envOf c) (fsOf c) fuel dataDir saveDir s c minTrials params =
      Except.error e) :
    runConds envOf fsOf fuel dataDir saveDir s minTrials params (c :: rest) =
      Except.error e := by
  simp only [runConds, h]

/-- C2: when the loaded positive-polarity matrix has exactly `minTrials`
trials, the strict `mat.shape[1] > minTrials` check is false, the
condition is skipped with the logged trial-count message, nothing is
written to its output file, and the loop proceeds with the remaining
conditions. -/
theorem trials_at_minimum_skips (envOf : Nat → CondEnv) (fsOf : Nat → Str → Bool)
    (fuel : Nat) (dataDir saveDir s : Str) (c minTrials : Nat) (params : Params)
    (rest : List Nat) (outName : Str) (w1 : MatFile)
    (hres : check_filename (fsOf c) fuel (saveNameOf s c) saveDir = some outName)
    (hload : (envOf c).loadmat (joinPath dataDir (loadNameOf s c Polarity.positive)) =
      Except.ok w1)
    (hsh : w1.data.shape1 = minTrials) :
    trialsCheck w1.data.shape1 minTrials = false ∧
    ∃ r, runCond (envOf c) (fsOf c) fuel dataDir saveDir s c minTrials params =
        Except.ok r ∧
      r.outcome = Outcome.skippedTrials
        (trialsMsg minTrials (loadNameOf s c Polarity.positive) c) ∧
      r.effects.lines = [] ∧
      runConds envOf fsOf fuel dataDir saveDir s minTrials params (c :: rest) =
        Except.map (fun rs => r :: rs)
          (runConds envOf fsOf fuel dataDir saveDir s minTrials params rest) := by
  have htc : trialsCheck w1.data.shape1 minTrials = false := by
    simp [trialsCheck, hsh]
  have hlac := loadAndCheck_trials_err (envOf c)
    (joinPath dataDir (loadNameOf s c Polarity.positive)) Polarity.positive minTrials
    params w1 hload (by omega)
  have hbody := runBody_pos_err (envOf c) dataDir s c minTrials params
    PyExc.assertionError (some w1.data) hlac
  have hstep := stepWith_assert outName (envOf c) dataDir s c minTrials params
    _ Polarity.positive w1.data hbody
  have hrc := (runCond_eq (envOf c) (fsOf c) fuel dataDir saveDir s c minTrials params
    outName hres).trans hstep
  refine ⟨htc, _, hrc, ?_, rfl,
    runConds_cons_ok envOf fsOf fuel dataDir saveDir s minTrials params c rest _ hrc⟩
  rw [← hsh]

/-- C2 witness: a file with exactly two trials and `minTrials = 2` makes
condition 2 skip while condition 3 is still attempted. -/
theorem trials_at_minimum_skips_witness :
    (check_filename fsNoneW 3 (saveNameOf subjW 2) saveDirW =
      some ("save/subj_condition_2.csv".data) ∧
     envTrialsW.loadmat (joinPath dataDirW (loadNameOf subjW 2 Polarity.positive)) =
      Except.ok fileTrialsW ∧
     fileTrialsW.data.shape1 = 2) ∧
    (trialsCheck fileTrialsW.data.shape1 2 = false ∧
     ∃ r, runCond envTrialsW fsNoneW 3 dataDirW saveDirW subjW 2 2 paramsW =
        Except.ok r ∧
      r.outcome = Outcome.skippedTrials
        (trialsMsg 2 (loadNameOf subjW 2 Polarity.positive) 2) ∧
      r.effects.lines = [] ∧
      runConds (fun _ => envTrialsW) (fun _ => fsNoneW) 3 dataDirW saveDirW subjW 2
          paramsW (2 :: [3]) =
        Except.map (fun rs => r :: rs)
          (runConds (fun _ => envTrialsW) (fun _ => fsNoneW) 3 dataDirW saveDirW subjW 2
            paramsW [3])) :=
  ⟨⟨by decide, rfl, rfl⟩,
   trials_at_minimum_skips (fun _ => envTrialsW) (fun _ => fsNoneW) 3 dataDirW saveDirW
     subjW 2 2 paramsW [3] ("save/subj_condition_2.csv".data) fileTrialsW
     (by decide) rfl rfl⟩

/-- C3: a condition whose (first) loaded file records a sample rate
different from the configured `params['Fs']` is skipped: the iteration
ends in a skip outcome, no data row is written to its output file, the
file is not closed, yet the output file was already created under the
resolved name (it is opened before the loads); the loop proceeds with
the remaining conditions. -/
theorem rate_mismatch_skips (envOf : Nat → CondEnv) (fsOf : Nat → Str → Bool)
    (fuel : Nat) (dataDir saveDir s : Str) (c minTrials : Nat) (params : Params)
    (rest : List Nat) (outName : Str) (w1 : MatFile)
    (hres : check_filename (fsOf c) fuel (saveNameOf s c) saveDir = some outName)
    (hload : (envOf c).loadmat (joinPath dataDir (loadNameOf s c Polarity.positive)) =
      Except.ok w1)
    (ht : minTrials < w1.data.shape1)
    (hr : w1.sampleRate ≠ params.Fs) :
    ∃ r, runCond (envOf c) (fsOf c) fuel dataDir saveDir s c minTrials params =
        Except.ok r ∧
      r.outFilename = outName ∧
      r.effects.lines = [] ∧
      r.effects.closed = false ∧
      r.outcome = Outcome.skippedTrials
        (trialsMsg w1.data.shape1 (loadNameOf s c Polarity.positive) c) ∧
      runConds envOf fsOf fuel dataDir saveDir s minTrials params (c :: rest) =
        Except.map (fun rs => r :: rs)
          (runConds envOf fsOf fuel dataDir saveDir s minTrials params rest) := by
  have hlac := loadAndCheck_rate_err (envOf c)
    (joinPath dataDir (loadNameOf s c Polarity.positive)) Polarity.positive minTrials
    params w1 hload ht hr
  have hbody := runBody_pos_err (envOf c) dataDir s c minTrials params
    PyExc.assertionError (some w1.data) hlac
  have hstep := stepWith_assert outName (envOf c) dataDir s c minTrials params
    _ Polarity.positive w1.data hbody
  have hrc := (runCond_eq (envOf c) (fsOf c) fuel dataDir saveDir s c minTrials params
    outName hres).trans hstep
  exact ⟨_, hrc, rfl, rfl, rfl, rfl,
    runConds_cons_ok envOf fsOf fuel dataDir saveDir s minTrials params c rest _ hrc⟩

/-- C3 witness: a recorded rate of 4999 against a configured 5000 skips
condition 1 with an empty output file while conditions 2 and 3 are still
attempted. -/
theorem rate_mismatch_skips_witness :
    (check_filename fsNoneW 3 (saveNameOf subjW 1) saveDirW = some outW ∧
     envRateW.loadmat (joinPath dataDirW (loadNameOf subjW 1 Polarity.positive)) =
      Except.ok fileRateW ∧
     2 < fileRateW.data.shape1 ∧
     fileRateW.sampleRate ≠ paramsW.Fs) ∧
    (∃ r, runCond envRateW fsNoneW 3 dataDirW saveDirW subjW 1 2 paramsW =
        Except.ok r ∧
      r.outFilename = outW ∧
      r.effects.lines = [] ∧
      r.effects.closed = false ∧
      r.outcome = Outcome.skippedTrials
        (trialsMsg fileRateW.data.shape1 (loadNameOf subjW 1 Polarity.positive) 1) ∧
      runConds (fun _ => envRateW) (fun _ => fsNoneW) 3 dataDirW saveDirW subjW 2
          paramsW (1 :: [2, 3]) =
        Except.map (fun rs => r :: rs)
          (runConds (fun _ => envRateW) (fun _ => fsNoneW) 3 dataDirW saveDirW subjW 2
            paramsW [2, 3])) :=
  ⟨⟨by decide, rfl, by decide, by decide⟩,
   rate_mismatch_skips (fun _ => envRateW) (fun _ => fsNoneW) 3 dataDirW saveDirW
     subjW 1 2 paramsW [2, 3] outW fileRateW (by decide) rfl (by decide) (by decide)⟩

/-- C9: when the sample-rate assert is the one that fails, the logged
skip message is still the trial-count message: it reports the file's
trial count and never mentions the sample rate, so a rate mismatch is
reported as a trial-count problem. -/
theorem rate_mismatch_reports_trials_message (env : CondEnv) (fs : Str → Bool)
    (fuel : Nat) (dataDir saveDir s : Str) (c minTrials : Nat) (params : Params)
    (outName : Str) (w1 : MatFile)
    (hres : check_filename fs fuel (saveNameOf s c) saveDir = some outName)
    (hload : env.loadmat (joinPath dataDir (loadNameOf s c Polarity.positive)) =
      Except.ok w1)
    (ht : minTrials < w1.data.shape1)
    (hr : w1.sampleRate ≠ params.Fs) :
    ∃ r, runCond env fs fuel dataDir saveDir s c minTrials params = Except.ok r ∧
      r.outcome = Outcome.skippedTrials
        (trialsMsg w1.data.shape1 (loadNameOf s c Polarity.positive) c) ∧
      r.effects.stdout =
        [condMsg c, trialsMsg w1.data.shape1 (loadNameOf s c Polarity.positive) c] := by
  have hlac := loadAndCheck_rate_err env
    (joinPath dataDir (loadNameOf s c Polarity.positive)) Polarity.positive minTrials
    params w1 hload ht hr
  have hbody := runBody_pos_err env dataDir s c minTrials params
    PyExc.assertionError (some w1.data) hlac
  have hstep := stepWith_assert outName env dataDir s c minTrials params
    _ Polarity.positive w1.data hbody
  have hrc := (runCond_eq env fs fuel dataDir saveDir s c minTrials params
    outName hres).trans hstep
  exact ⟨_, hrc, rfl, rfl⟩

/-- C9 witness: the mismatched-rate file holds three trials, and the
skip message for condition 3 is exactly the three-trials message. -/
theorem rate_mismatch_reports_trials_message_witness :
    (check_filename fsNoneW 3 (saveNameOf subjW 3) saveDirW =
      some ("save/subj_condition_3.csv".data) ∧
     envRateW.loadmat (joinPath dataDirW (loadNameOf subjW 3 Polarity.positive)) =
      Except.ok fileRateW ∧
     2 < fileRateW.data.shape1 ∧
     fileRateW.sampleRate ≠ paramsW.Fs) ∧
    (∃ r, runCond envRateW fsNoneW 3 dataDirW saveDirW subjW 3 2 paramsW =
        Except.ok r ∧
      r.outcome = Outcome.skippedTrials
        (trialsMsg fileRateW.data.shape1 (loadNameOf subjW 3 Polarity.positive) 3) ∧
      r.effects.stdout =
        [condMsg 3, trialsMsg fileRateW.data.shape1 (loadNameOf subjW 3 Polarity.positive) 3]) :=
  ⟨⟨by decide, rfl, by decide, by decide⟩,
   rate_mismatch_reports_trials_message envRateW fsNoneW 3 dataDirW saveDirW subjW 3 2
     paramsW ("save/subj_condition_3.csv".data) fileRateW
     (by decide) rfl (by decide) (by decide)⟩

/-- C5: when both polarities pass their checks, each polarity's
subsample is the first `minTrials` entries of that polarity's random
permutation of trial indices — hence exactly `minTrials` distinct
indices per polarity, the same count for both, drawn independently — and
the estimator is invoked exactly once, with the two subsampled matrices
as a two-element list (positive first) together with the parameter set.
Numpy's `random.permutation` is an oracle; that its draw is a
permutation of `range(mat.shape[1])` is its contract, taken as a
hypothesis. -/
theorem subsample_and_single_boot_call (env : CondEnv) (dataDir s : Str)
    (c minTrials : Nat) (params : Params) (w1 w2 : MatFile)
    (hl1 : env.loadmat (joinPath dataDir (loadNameOf s c Polarity.positive)) =
      Except.ok w1)
    (ht1 : minTrials < w1.data.shape1)
    (hr1 : w1.sampleRate = params.Fs)
    (hl2 : env.loadmat (joinPath dataDir (loadNameOf s c Polarity.negative)) =
      Except.ok w2)
    (ht2 : minTrials < w2.data.shape1)
    (hr2 : w2.sampleRate = params.Fs)
    (hp1 : (env.perm Polarity.positive).Perm (List.range w1.data.shape1))
    (hp2 : (env.perm Polarity.negative).Perm (List.range w2.data.shape1)) :
    (runBody env dataDir s c minTrials params).1.usedTrials =
      [(Polarity.positive, (env.perm Polarity.positive).take minTrials),
       (Polarity.negative, (env.perm Polarity.negative).take minTrials)] ∧
    ((env.perm Polarity.positive).take minTrials).length = minTrials ∧
    ((env.perm Polarity.negative).take minTrials).length = minTrials ∧
    ((env.perm Polarity.positive).take minTrials).Nodup ∧
    ((env.perm Polarity.negative).take minTrials).Nodup ∧
    (runBody env dataDir s c minTrials params).1.bootCalls =
      [([selectTrials w1.data ((env.perm Polarity.positive).take minTrials),
         selectTrials w2.data ((env.perm Polarity.negative).take minTrials)],
        params)] := by
  have hu1 := hp1.length_eq.trans (List.length_range _)
  have hu2 := hp2.length_eq.trans (List.length_range _)
  have hlac1 := loadAndCheck_pass env
    (joinPath dataDir (loadNameOf s c Polarity.positive)) Polarity.positive minTrials
    params w1 hl1 ht1 hr1
  have hlac2 := loadAndCheck_pass env
    (joinPath dataDir (loadNameOf s c Polarity.negative)) Polarity.negative minTrials
    params w2 hl2 ht2 hr2
  have heff := runBody_effects_after_ok env dataDir s c minTrials params w1.data w2.data
    ((env.perm Polarity.positive).take minTrials)
    ((env.perm Polarity.negative).take minTrials) hlac1 hlac2
  refine ⟨heff.2.2.1, ?_, ?_, ?_, ?_, heff.2.2.2⟩
  · rw [List.length_take, hu1]
    omega
  · rw [List.length_take, hu2]
    omega
  · exact List.Nodup.sublist (List.take_sublist _ _)
      (hp1.nodup_iff.mpr (List.nodup_range _))
  · exact List.Nodup.sublist (List.take_sublist _ _)
      (hp2.nodup_iff.mpr (List.nodup_range _))

/-- C5 witness: with permutation `[2, 0, 1]` of three trials and
`minTrials = 2`, both subsamples are `[2, 0]` and the estimator is
called exactly once on the pair of subsampled matrices. -/
theorem subsample_and_single_boot_call_witness :
    (envOKW.loadmat (joinPath dataDirW (loadNameOf subjW 1 Polarity.positive)) =
      Except.ok fileOKW ∧
     2 < fileOKW.data.shape1 ∧
     fileOKW.sampleRate = paramsW.Fs ∧
     envOKW.loadmat (joinPath dataDirW (loadNameOf subjW 1 Polarity.negative)) =
      Except.ok fileOKW ∧
     (envOKW.perm Polarity.positive).Perm (List.range fileOKW.data.shape1) ∧
     (envOKW.perm Polarity.negative).Perm (List.range fileOKW.data.shape1)) ∧
    ((runBody envOKW dataDirW subjW 1 2 paramsW).1.usedTrials =
      [(Polarity.positive, (envOKW.perm Polarity.positive).take 2),
       (Polarity.negative, (envOKW.perm Polarity.negative).take 2)] ∧
     ((envOKW.perm Polarity.positive).take 2).length = 2 ∧
     ((envOKW.perm Polarity.negative).take 2).length = 2 ∧
     ((envOKW.perm Polarity.positive).take 2).Nodup ∧
     ((envOKW.perm Polarity.negative).take 2).Nodup ∧
     (runBody envOKW dataDirW subjW 1 2 paramsW).1.bootCalls =
      [([selectTrials fileOKW.data ((envOKW.perm Polarity.positive).take 2),
         selectTrials fileOKW.data ((envOKW.perm Polarity.negative).take 2)],
        paramsW)]) :=
  ⟨⟨rfl, by decide, rfl, rfl, by decide, by decide⟩,
   subsample_and_single_boot_call envOKW dataDirW subjW 1 2 paramsW fileOKW fileOKW
     rfl (by decide) rfl rfl (by decide) rfl (by decide) (by decide)⟩

/-- C6: a fully successful condition writes exactly one header row with
the fixed 13 column names followed by one data row per frequency bin of
the parameter record's frequency axis — each row holding subject,
condition, draw count, trials per draw, the frequency value, and the
eight bootstrap statistics — and the file is closed on this normal
path. -/
theorem success_csv_layout (env : CondEnv) (fs : Str → Bool) (fuel : Nat)
    (dataDir saveDir s : Str) (c minTrials : Nat) (params : Params)
    (w1 w2 : MatFile) (res : BootResult) (outName : Str)
    (hres : check_filename fs fuel (saveNameOf s c) saveDir = some outName)
    (hl1 : env.loadmat (joinPath dataDir (loadNameOf s c Polarity.positive)) =
      Except.ok w1)
    (ht1 : minTrials < w1.data.shape1)
    (hr1 : w1.sampleRate = params.Fs)
    (hl2 : env.loadmat (joinPath dataDir (loadNameOf s c Polarity.negative)) =
      Except.ok w2)
    (ht2 : minTrials < w2.data.shape1)
    (hr2 : w2.sampleRate = params.Fs)
    (hb : ∀ dat p, env.bootfunc dat p = Except.ok res)
    (hw : env.writeFail = none) :
    ∃ r, runCond env fs fuel dataDir saveDir s c minTrials params = Except.ok r ∧
      r.outcome = Outcome.completed ∧
      r.outFilename = outName ∧
      r.effects.closed = true ∧
      r.effects.lines = formatRow headerCells ::
        (List.range params.f.length).map (fun i => formatRow (dataRow s c params res i)) ∧
      r.effects.lines.length = params.f.length + 1 ∧
      headerCells.length = 13 ∧
      (∀ i, (dataRow s c params res i).length = 13) := by
  have hlac1 := loadAndCheck_pass env
    (joinPath dataDir (loadNameOf s c Polarity.positive)) Polarity.positive minTrials
    params w1 hl1 ht1 hr1
  have hlac2 := loadAndCheck_pass env
    (joinPath dataDir (loadNameOf s c Polarity.negative)) Polarity.negative minTrials
    params w2 hl2 ht2 hr2
  have hbody := runBody_success env dataDir s c minTrials params w1.data w2.data
    ((env.perm Polarity.positive).take minTrials)
    ((env.perm Polarity.negative).take minTrials) res hlac1 hlac2 (hb _ _) hw
  have hstep := stepWith_ok outName env dataDir s c minTrials params _ hbody
  have hrc := (runCond_eq env fs fuel dataDir saveDir s c minTrials params
    outName hres).trans hstep
  refine ⟨_, hrc, rfl, rfl, rfl, rfl, ?_, rfl, fun i => rfl⟩
  simp

/-- C6 witness: two frequency bins give a header line plus two data
lines, and the file ends closed. -/
theorem success_csv_layout_witness :
    (check_filename fsNoneW 3 (saveNameOf subjW 1) saveDirW = some outW ∧
     envOKW.loadmat (joinPath dataDirW (loadNameOf subjW 1 Polarity.positive)) =
      Except.ok fileOKW ∧
     2 < fileOKW.data.shape1 ∧
     fileOKW.sampleRate = paramsW.Fs ∧
     (∀ dat p, envOKW.bootfunc dat p = Except.ok resW) ∧
     envOKW.writeFail = none) ∧
    (∃ r, runCond envOKW fsNoneW 3 dataDirW saveDirW subjW 1 2 paramsW =
        Except.ok r ∧
      r.outcome = Outcome.completed ∧
      r.outFilename = outW ∧
      r.effects.closed = true ∧
      r.effects.lines = formatRow headerCells ::
        (List.range paramsW.f.length).map
          (fun i => formatRow (dataRow subjW 1 paramsW resW i)) ∧
      r.effects.lines.length = paramsW.f.length + 1 ∧
      headerCells.length = 13 ∧
      (∀ i, (dataRow subjW 1 paramsW resW i).length = 13)) :=
  ⟨⟨by decide, rfl, by decide, rfl, fun _ _ => rfl, rfl⟩,
   success_csv_layout envOKW fsNoneW 3 dataDirW saveDirW subjW 1 2 paramsW
     fileOKW fileOKW resW outW (by decide) rfl (by decide) rfl rfl (by decide) rfl
     (fun _ _ => rfl) rfl⟩

/-- The `try` block requests at most the positive and negative input
paths, in that order. -/
theorem runBody_reads (env : CondEnv) (dataDir s : Str) (c minTrials : Nat)
    (params : Params) :
    (runBody env dataDir s c minTrials params).1.reads =
      [joinPath dataDir (loadNameOf s c Polarity.positive)] ∨
    (runBody env dataDir s c minTrials params).1.reads =
      [joinPath dataDir (loadNameOf s c Polarity.positive),
       joinPath dataDir (loadNameOf s c Polarity.negative)] := by
  rcases h1 : loadAndCheck env (joinPath dataDir (loadNameOf s c Polarity.positive))
      Polarity.positive minTrials params with ⟨e, m⟩ | ⟨m1, u1⟩
  · left
    rw [runBody_pos_err env dataDir s c minTrials params e m h1]
  · rcases h2 : loadAndCheck env (joinPath dataDir (loadNameOf s c Polarity.negative))
        Polarity.negative minTrials params with ⟨e, m⟩ | ⟨m2, u2⟩
    · right
      rw [runBody_neg_err env dataDir s c minTrials params e m m1 u1 h1 h2]
    · right
      exact (runBody_effects_after_ok env dataDir s c minTrials params
        m1 m2 u1 u2 h1 h2).1

/-- The `AssertionError` handler needs the variable `mat`; in the model
an assert with no matrix at hand is a `NameError`. -/
theorem stepWith_assert_none (outName : Str) (env : CondEnv) (dataDir s : Str)
    (c minTrials : Nat) (params : Params) (eff : Effects) (l : Polarity)
    (hbody : runBody env dataDir s c minTrials params =
      (eff, some (PyExc.assertionError, l, none))) :
    stepWith outName env dataDir s c minTrials params =
      Except.error (PyExc.other ("NameError".data)) := by
  simp only [stepWith, hbody]

/-- Every completed iteration reports the resolved output filename. -/
theorem stepWith_ok_outFilename (outName : Str) (env : CondEnv) (dataDir s : Str)
    (c minTrials : Nat) (params : Params) (r : CondReport)
    (h : stepWith outName env dataDir s c minTrials params = Except.ok r) :
    r.outFilename = outName := by
  rcases hB : runBody env dataDir s c minTrials params with ⟨eff, x⟩
  rcases x with _ | ⟨exc, l, m⟩
  · rw [stepWith_ok outName env dataDir s c minTrials params eff hB] at h
    injection h with h2
    rw [← h2]
  · cases exc with
    | ioError =>
      rw [stepWith_io outName env dataDir s c minTrials params eff l m hB] at h
      injection h with h2
      rw [← h2]
    | assertionError =>
      cases m with
      | some mm =>
        rw [stepWith_assert outName env dataDir s c minTrials params eff l mm hB] at h
        injection h with h2
        rw [← h2]
      | none =>
        rw [stepWith_assert_none outName env dataDir s c minTrials params eff l hB] at h
        simp at h
    | other n =>
      rw [stepWith_other outName env dataDir s c minTrials params eff l m n hB] at h
      simp at h

/-- C7: the positive input is `s_S_c.mat`, the negative input is
`s_S_(c+6).mat`, the output base name is `s_condition_c.csv`, the body
requests exactly those input paths (positive first, negative only when
the positive polarity passed), and a completed iteration carries the
collision-resolved output name. -/
theorem io_naming (env : CondEnv) (fs : Str → Bool) (fuel : Nat)
    (dataDir saveDir s : Str) (c minTrials : Nat) (params : Params) (outName : Str)
    (hres : check_filename fs fuel (saveNameOf s c) saveDir = some outName) :
    loadNameOf s c Polarity.positive = s ++ ("_S_".data) ++ natStr c ++ (".mat".data) ∧
    loadNameOf s c Polarity.negative =
      s ++ ("_S_".data) ++ natStr (c + 6) ++ (".mat".data) ∧
    saveNameOf s c = s ++ ("_condition_".data) ++ natStr c ++ (".csv".data) ∧
    ((runBody env dataDir s c minTrials params).1.reads =
      [joinPath dataDir (loadNameOf s c Polarity.positive)] ∨
     (runBody env dataDir s c minTrials params).1.reads =
      [joinPath dataDir (loadNameOf s c Polarity.positive),
       joinPath dataDir (loadNameOf s c Polarity.negative)]) ∧
    (∀ r, runCond env fs fuel dataDir saveDir s c minTrials params = Except.ok r →
      r.outFilename = outName) := by
  refine ⟨rfl, rfl, rfl, runBody_reads env dataDir s c minTrials params, ?_⟩
  intro r h
  rw [runCond_eq env fs fuel dataDir saveDir s c minTrials params outName hres] at h
  exact stepWith_ok_outFilename outName env dataDir s c minTrials params r h

/-- C7 witness: for subject `subj` and condition 2 the inputs are
`subj_S_2.mat` and `subj_S_8.mat` and the output base name is
`subj_condition_2.csv`. -/
theorem io_naming_witness :
    check_filename fsNoneW 3 (saveNameOf subjW 2) saveDirW =
      some ("save/subj_condition_2.csv".data) ∧
    (loadNameOf subjW 2 Polarity.positive = ("subj_S_2.mat".data) ∧
     loadNameOf subjW 2 Polarity.negative = ("subj_S_8.mat".data) ∧
     saveNameOf subjW 2 = ("subj_condition_2.csv".data)) ∧
    (loadNameOf subjW 2 Polarity.positive =
      subjW ++ ("_S_".data) ++ natStr 2 ++ (".mat".data) ∧
     loadNameOf subjW 2 Polarity.negative =
      subjW ++ ("_S_".data) ++ natStr (2 + 6) ++ (".mat".data) ∧
     saveNameOf subjW 2 = subjW ++ ("_condition_".data) ++ natStr 2 ++ (".csv".data) ∧
     ((runBody envOKW dataDirW subjW 2 2 paramsW).1.reads =
       [joinPath dataDirW (loadNameOf subjW 2 Polarity.positive)] ∨
      (runBody envOKW dataDirW subjW 2 2 paramsW).1.reads =
       [joinPath dataDirW (loadNameOf subjW 2 Polarity.positive),
        joinPath dataDirW (loadNameOf subjW 2 Polarity.negative)]) ∧
     (∀ r, runCond envOKW fsNoneW 3 dataDirW saveDirW subjW 2 2 paramsW =
        Except.ok r → r.outFilename = ("save/subj_condition_2.csv".data))) :=
  ⟨by decide, ⟨by decide, by decide, by decide⟩,
   io_naming envOKW fsNoneW 3 dataDirW saveDirW subjW 2 2 paramsW
     ("save/subj_condition_2.csv".data) (by decide)⟩

/-- C8 (amended): the source has no shadowing condition counter — every
report of a non-aborting iteration carries the loop's condition index
`c`, its output filename is the resolver's answer for the
`c`-parametrised save name, and every skip message embeds the same `c`,
so the condition reported in a skip message never differs from the one
in the output filename. -/
theorem condition_index_consistent (env : CondEnv) (fs : Str → Bool) (fuel : Nat)
    (dataDir saveDir s : Str) (c minTrials : Nat) (params : Params) (r : CondReport)
    (h : runCond env fs fuel dataDir saveDir s c minTrials params = Except.ok r) :
    r.condition = c ∧
    check_filename fs fuel (saveNameOf s c) saveDir = some r.outFilename ∧
    (∀ msg, r.outcome = Outcome.skippedIO msg →
      ∃ pol, msg = ioMsg (loadNameOf s c pol) c) ∧
    (∀ msg, r.outcome = Outcome.skippedTrials msg →
      ∃ pol n, msg = trialsMsg n (loadNameOf s c pol) c) := by
  rcases hcf : check_filename fs fuel (saveNameOf s c) saveDir with _ | outName
  · have herr : runCond env fs fuel dataDir saveDir s c minTrials params =
        Except.error (PyExc.other ("resolver fuel exhausted".data)) := by
      simp only [runCond, hcf]
    rw [herr] at h
    simp at h
  · rw [runCond_eq env fs fuel dataDir saveDir s c minTrials params outName hcf] at h
    rcases hB : runBody env dataDir s c minTrials params with ⟨eff, x⟩
    rcases x with _ | ⟨exc, l, m⟩
    · rw [stepWith_ok outName env dataDir s c minTrials params eff hB] at h
      injection h with h2
      subst h2
      exact ⟨rfl, rfl, fun msg hmsg => by simp at hmsg, fun msg hmsg => by simp at hmsg⟩
    · cases exc with
      | ioError =>
        rw [stepWith_io outName env dataDir s c minTrials params eff l m hB] at h
        injection h with h2
        subst h2
        refine ⟨rfl, rfl, fun msg hmsg => ?_, fun msg hmsg => by simp at hmsg⟩
        injection hmsg with h3
        exact ⟨l, h3.symm⟩
      | assertionError =>
        cases m with
        | some mm =>
          rw [stepWith_assert outName env dataDir s c minTrials params eff l mm hB] at h
          injection h with h2
          subst h2
          refine ⟨rfl, rfl, fun msg hmsg => by simp at hmsg, fun msg hmsg => ?_⟩
          injection hmsg with h3
          exact ⟨l, mm.shape1, h3.symm⟩
        | none =>
          rw [stepWith_assert_none outName env dataDir s c minTrials params eff l hB] at h
          simp at h
      | other n =>
        rw [stepWith_other outName env dataDir s c minTrials params eff l m n hB] at h
        simp at h

/-- C8 counterexample: in a concrete run that skips condition 2, the
skip message names condition 2 and the output filename embeds condition
2 — the condition value in the message does not differ from the one in
the filename, contradicting the claimed shadowed-counter
inconsistency. -/
theorem skip_message_matches_filename :
    okOutcome (runCond envMissingW fsNoneW 3 dataDirW saveDirW subjW 2 2 paramsW) =
      some (Outcome.skippedIO
        ("\nCannot find file: subj_S_2.mat, skipping,condition 2 \n".data)) ∧
    okOutFilename (runCond envMissingW fsNoneW 3 dataDirW saveDirW subjW 2 2 paramsW) =
      some ("save/subj_condition_2.csv".data) := by decide

/-- C8 witness: a missing-file skip of condition 1, with the report's
fields as the amended claim describes them. -/
theorem condition_index_consistent_witness :
    (runCond envMissingW fsNoneW 3 dataDirW saveDirW subjW 1 2 paramsW =
      Except.ok reportMissingW) ∧
    (reportMissingW.condition = 1 ∧
     check_filename fsNoneW 3 (saveNameOf subjW 1) saveDirW =
       some reportMissingW.outFilename ∧
     (∀ msg, reportMissingW.outcome = Outcome.skippedIO msg →
       ∃ pol, msg = ioMsg (loadNameOf subjW 1 pol) 1) ∧
     (∀ msg, reportMissingW.outcome = Outcome.skippedTrials msg →
       ∃ pol n, msg = trialsMsg n (loadNameOf subjW 1 pol) 1)) :=
  ⟨rfl,
   condition_index_consistent envMissingW fsNoneW 3 dataDirW saveDirW subjW 1 2
     paramsW reportMissingW rfl⟩

/-- C4 (amended): the two `except` clauses catch the exception classes
`IOError` and `AssertionError` wherever they arise in the `try` block —
missing input file, insufficient trials, sample-rate mismatch, and a
disk-write `IOError` are all condition-scoped, logged to standard output
as the last printed line, and the loop continues with the next
condition — while every other exception propagates and aborts the
loop. -/
theorem exception_classification (env : CondEnv) (envOf : Nat → CondEnv)
    (fsOf : Nat → Str → Bool) (fuel : Nat) (dataDir saveDir s : Str)
    (c minTrials : Nat) (params : Params) (outName : Str) (eff : Effects)
    (exc : PyExc) (l : Polarity) (m : Option Mat)
    (hbody : runBody env dataDir s c minTrials params = (eff, some (exc, l, m))) :
    (exc = PyExc.ioError →
      ∃ r, stepWith outName env dataDir s c minTrials params = Except.ok r ∧
        r.outcome = Outcome.skippedIO (ioMsg (loadNameOf s c l) c) ∧
        r.effects.stdout.getLast? = some (ioMsg (loadNameOf s c l) c)) ∧
    (∀ mt, exc = PyExc.assertionError → m = some mt →
      ∃ r, stepWith outName env dataDir s c minTrials params = Except.ok r ∧
        r.outcome = Outcome.skippedTrials (trialsMsg mt.shape1 (loadNameOf s c l) c) ∧
        r.effects.stdout.getLast? = some (trialsMsg mt.shape1 (loadNameOf s c l) c)) ∧
    (∀ n, exc = PyExc.other n →
      stepWith outName env dataDir s c minTrials params =
        Except.error (PyExc.other n)) ∧
    (∀ r rest,
      runCond (envOf c) (fsOf c) fuel dataDir saveDir s c minTrials params =
        Except.ok r →
      runConds envOf fsOf fuel dataDir saveDir s minTrials params (c :: rest) =
        Except.map (fun rs => r :: rs)
          (runConds envOf fsOf fuel dataDir saveDir s minTrials params rest)) ∧
    (∀ e rest,
      runCond (envOf c) (fsOf c) fuel dataDir saveDir s c minTrials params =
        Except.error e →
      runConds envOf fsOf fuel dataDir saveDir s minTrials params (c :: rest) =
        Except.error e) := by
  refine ⟨?_, ?_, ?_,
    fun r rest h =>
      runConds_cons_ok envOf fsOf fuel dataDir saveDir s minTrials params c rest r h,
    fun e rest h =>
      runConds_cons_err envOf fsOf fuel dataDir saveDir s minTrials params c rest e h⟩
  · intro hexc
    subst hexc
    refine ⟨_, stepWith_io outName env dataDir s c minTrials params eff l m hbody,
      rfl, ?_⟩
    show ((condMsg c :: eff.stdout) ++ [ioMsg (loadNameOf s c l) c]).getLast? = _
    exact List.getLast?_concat _
  · intro mt hexc hm
    subst hexc
    subst hm
    refine ⟨_, stepWith_assert outName env dataDir s c minTrials params eff l mt hbody,
      rfl, ?_⟩
    show ((condMsg c :: eff.stdout) ++ [trialsMsg mt.shape1 (loadNameOf s c l) c]).getLast? = _
    exact List.getLast?_concat _
  · intro n hexc
    subst hexc
    exact stepWith_other outName env dataDir s c minTrials params eff l m n hbody

/-- C4 counterexample: an `IOError` raised by the first
`outputFile.write` — a disk-write failure — does not terminate the run:
it is caught by the `except IOError` clause, the condition is skipped,
and the handler even logs it as a missing negative-polarity input file;
no line reaches the output file. -/
theorem write_failure_is_caught :
    okOutcome (stepWith outW envWriteFailW dataDirW subjW 1 2 paramsW) =
      some (Outcome.skippedIO
        ("\nCannot find file: subj_S_7.mat, skipping,condition 1 \n".data)) ∧
    okLines (stepWith outW envWriteFailW dataDirW subjW 1 2 paramsW) = some [] := by
  decide

/-- C4 witness: an estimator `ValueError` propagates out of the
iteration and aborts the whole condition loop. -/
theorem exception_classification_witness :
    (runBody envBootErrW dataDirW subjW 1 2 paramsW =
      ((runBody envBootErrW dataDirW subjW 1 2 paramsW).1,
       some (PyExc.other ("ValueError".data), Polarity.negative, some matW))) ∧
    stepWith outW envBootErrW dataDirW subjW 1 2 paramsW =
      Except.error (PyExc.other ("ValueError".data)) ∧
    runConds (fun _ => envBootErrW) (fun _ => fsNoneW) 3 dataDirW saveDirW subjW 2
      paramsW conditions123 = Except.error (PyExc.other ("ValueError".data)) := by
  have hbody : runBody envBootErrW dataDirW subjW 1 2 paramsW =
      ((runBody envBootErrW dataDirW subjW 1 2 paramsW).1,
       some (PyExc.other ("ValueError".data), Polarity.negative, some matW)) := rfl
  have h := exception_classification envBootErrW (fun _ => envBootErrW)
    (fun _ => fsNoneW) 3 dataDirW saveDirW subjW 1 2 paramsW outW _ _ _ _ hbody
  have hstep := h.2.2.1 ("ValueError".data) rfl
  have hrcErr : runCond envBootErrW fsNoneW 3 dataDirW saveDirW subjW 1 2 paramsW =
      Except.error (PyExc.other ("ValueError".data)) := by
    rw [runCond_eq envBootErrW fsNoneW 3 dataDirW saveDirW subjW 1 2 paramsW outW
      (by decide)]
    exact hstep
  exact ⟨hbody, hstep,
    h.2.2.2.2 (PyExc.other ("ValueError".data)) [2, 3] hrcErr⟩
